import Mathlib

/-!
Verification of the multi-session streaming chat protocol and its client-side
reconciliation state machine, embedded from the repository sources:
frontend/src/components/AgentChatPanel.tsx (session registry, segment
aggregation, reconciliation handlers) and the websocket stream client
streamChatMessage (api/client.ts).
-/

namespace OpenPF

/-! ### Data model (frontend/src/types/index.ts) -/

/-- ToolCallEntry from types/index.ts: phase tag, human message, optional
tool-input snapshot. The open-ended Record values are modelled as strings. -/
structure ToolCallEntry where
  phase : String
  message : String
  tool_input : Option (List (String × String)) := none
deriving DecidableEq, Repr

/-- ChatMessage from types/index.ts. Negative ids are the client-fabricated
optimistic placeholders. -/
structure ChatMessage where
  id : Int
  session_id : String
  created_at : String
  role : String
  content : String
  tool_calls : Option (List ToolCallEntry) := none
deriving DecidableEq, Repr

/-- ChatSession from types/index.ts. -/
structure ChatSession where
  id : String
  created_at : String
  updated_at : String
  title : String
deriving DecidableEq, Repr

/-- The kinds of the StreamSegment union type in AgentChatPanel.tsx
(lines 84-89). The implemented type has exactly these four kinds. -/
inductive SegKind
  | thinking
  | tool_start
  | tool_result
  | text
deriving DecidableEq, Repr

/-- StreamSegment from AgentChatPanel.tsx: a live unit of the in-flight
transcript. -/
structure StreamSegment where
  id : String
  kind : SegKind
  text : String
  toolInput : Option (List (String × String)) := none
deriving DecidableEq, Repr

/-- StatusItem from AgentChatPanel.tsx (status trail entries). -/
structure StatusItem where
  id : String
  phase : String
  message : String
deriving DecidableEq, Repr

/-- SessionState from AgentChatPanel.tsx (lines 91-100): the per-session
registry entry. -/
structure SessionState where
  messages : List ChatMessage
  sending : Bool
  streamStatus : Option String
  hasStreamedText : Bool
  statusTrail : List StatusItem
  streamSegments : List StreamSegment
  streamAssistantId : Option Int
  toolCallsExpanded : Bool
deriving DecidableEq, Repr

/-- freshSession from AgentChatPanel.tsx (lines 102-113). -/
def freshSession : SessionState :=
  { messages := []
    sending := false
    streamStatus := none
    hasStreamedText := false
    statusTrail := []
    streamSegments := []
    streamAssistantId := none
    toolCallsExpanded := false }

/-! ### Segment aggregation (the stream handlers in AgentChatPanel.tsx) -/

/-- The JS expression (message or the fallback when falsy): an empty message
string becomes the Thinking placeholder text. -/
def statusText (message : String) : String :=
  if message = "" then "Thinking..." else message

/-- The phase-to-kind mapping inside onStatus (lines 336-341): tool phases map
to their kinds, every other phase (thinking, error, and all subagent phases
alike) maps to the thinking kind. -/
def phaseKind (phase : String) : SegKind :=
  if phase = "tool_start" then SegKind.tool_start
  else if phase = "tool_result" then SegKind.tool_result
  else SegKind.thinking

/-- JS slice(-8) applied to the status trail. -/
def sliceLast8 (l : List StatusItem) : List StatusItem :=
  l.drop (l.length - 8)

/-- The segment a status envelope would append: kind derived from the phase,
text the (defaulted) message, tool input kept only for tool_start. -/
def newStatusSegment (phase next segId : String)
    (ti : Option (List (String × String))) : StreamSegment :=
  { id := segId
    kind := phaseKind phase
    text := next
    toolInput := if phase = "tool_start" then ti else none }

/-- The streamSegments update of onStatus (lines 342-350): append a new
segment unless the last segment already has the same kind and text. -/
def statusSegs (phase next segId : String) (ti : Option (List (String × String)))
    (segs : List StreamSegment) : List StreamSegment :=
  match segs.getLast? with
  | none => segs ++ [newStatusSegment phase next segId ti]
  | some prev =>
      if prev.kind ≠ phaseKind phase ∨ prev.text ≠ next then
        segs ++ [newStatusSegment phase next segId ti]
      else segs

/-- The statusTrail update of onStatus (lines 330-333): append unless the
last trail item has the same phase and message, then keep the last 8. -/
def statusTrailUpd (phase next stId : String) (trail : List StatusItem) :
    List StatusItem :=
  match trail.getLast? with
  | none => sliceLast8 (trail ++ [{ id := stId, phase := phase, message := next }])
  | some last =>
      if last.message ≠ next ∨ last.phase ≠ phase then
        sliceLast8 (trail ++ [{ id := stId, phase := phase, message := next }])
      else trail

/-- The onStatus handler (AgentChatPanel.tsx lines 327-352), as a pure update
of the session registry entry. The fresh DOM ids are taken as parameters. -/
def onStatusH (phase message : String) (ti : Option (List (String × String)))
    (stId segId : String) (s : SessionState) : SessionState :=
  let next := statusText message
  { s with
    statusTrail := statusTrailUpd phase next stId s.statusTrail
    streamStatus := some next
    streamSegments := statusSegs phase next segId ti s.streamSegments }

/-- The streamSegments update of onDelta (lines 353-364): extend a trailing
text segment in place, otherwise append a new text segment seeded with the
fragment. -/
def deltaSegs (delta segId : String) (segs : List StreamSegment) :
    List StreamSegment :=
  match segs.getLast? with
  | some last =>
      if last.kind = SegKind.text then
        segs.dropLast ++ [{ last with text := last.text ++ delta }]
      else
        segs ++ [{ id := segId, kind := SegKind.text, text := delta, toolInput := none }]
  | none => segs ++ [{ id := segId, kind := SegKind.text, text := delta, toolInput := none }]

/-- The onDelta handler (AgentChatPanel.tsx lines 353-364). -/
def onDeltaH (delta segId : String) (s : SessionState) : SessionState :=
  { s with
    hasStreamedText := true
    streamSegments := deltaSegs delta segId s.streamSegments }

/-- The onAck handler (AgentChatPanel.tsx lines 321-326): swap the fabricated
user message for the server-confirmed one, in place. -/
def onAckH (userMessage : ChatMessage) (optimisticUserId : Int)
    (s : SessionState) : SessionState :=
  { s with
    messages := s.messages.map fun row =>
      if row.id = optimisticUserId then userMessage else row
    streamStatus := some "Thinking..." }

/-- The onDone handler (AgentChatPanel.tsx lines 365-376): swap the fabricated
assistant message for the final one, clear the live stream state, release the
sending flag. -/
def onDoneH (assistantMessage : ChatMessage) (optimisticAssistantId : Int)
    (s : SessionState) : SessionState :=
  { s with
    messages := s.messages.map fun row =>
      if row.id = optimisticAssistantId then assistantMessage else row
    streamStatus := none
    streamSegments := []
    streamAssistantId := none
    sending := false
    hasStreamedText := false }

/-- The onError handler (AgentChatPanel.tsx lines 377-390): mark the
fabricated assistant message as failed in place, clear the live stream state,
release the sending flag. -/
def onErrorH (message : String) (optimisticAssistantId : Int) (errId : String)
    (s : SessionState) : SessionState :=
  { s with
    streamStatus := some ("Failed: " ++ message)
    statusTrail := sliceLast8 (s.statusTrail ++
      [{ id := errId, phase := "error", message := "Failed: " ++ message }])
    messages := s.messages.map fun row =>
      if row.id = optimisticAssistantId then
        { row with content := "Message failed: " ++ message }
      else row
    streamSegments := []
    streamAssistantId := none
    sending := false
    hasStreamedText := false }

/-! ### Session registry (AgentChatPanel.tsx lines 136-161) -/

/-- The session registry: the Map from session id to SessionState held in
sessionsRef, modelled as an association list. -/
abbrev Registry := List (String × SessionState)

/-- Map lookup. -/
def lookupR : Registry → String → Option SessionState
  | [], _ => none
  | (k, v) :: rest, id => if k = id then some v else lookupR rest id

/-- Map set: replace an existing binding, otherwise add one. -/
def insertR : Registry → String → SessionState → Registry
  | [], id, s => [(id, s)]
  | (k, v) :: rest, id, s =>
      if k = id then (k, s) :: rest else (k, v) :: insertR rest id s

/-- getSession (lines 148-155), read part: the entry, or a fresh one. -/
def getSessionR (reg : Registry) (id : String) : SessionState :=
  (lookupR reg id).getD freshSession

/-- getSession, lazy-creation side effect on the map. -/
def ensureSessionR (reg : Registry) (id : String) : Registry :=
  match lookupR reg id with
  | some _ => reg
  | none => insertR reg id freshSession

/-- patchSession (lines 157-160): run the updater on the (lazily created)
entry for one id. -/
def patchSessionR (reg : Registry) (id : String)
    (f : SessionState → SessionState) : Registry :=
  insertR reg id (f (getSessionR reg id))

/-- The registry-level onAck callback: patchSession on the captured session
id. -/
def onAckR (sessionId : String) (um : ChatMessage) (uid : Int)
    (reg : Registry) : Registry :=
  patchSessionR reg sessionId (onAckH um uid)

/-- The registry-level onStatus callback. -/
def onStatusR (sessionId phase message : String)
    (ti : Option (List (String × String))) (stId segId : String)
    (reg : Registry) : Registry :=
  patchSessionR reg sessionId (onStatusH phase message ti stId segId)

/-- The registry-level onDelta callback. -/
def onDeltaR (sessionId delta segId : String) (reg : Registry) : Registry :=
  patchSessionR reg sessionId (onDeltaH delta segId)

/-- The registry-level onDone callback. -/
def onDoneR (sessionId : String) (am : ChatMessage) (aid : Int)
    (reg : Registry) : Registry :=
  patchSessionR reg sessionId (onDoneH am aid)

/-- The registry-level onError callback. -/
def onErrorR (sessionId message : String) (aid : Int) (errId : String)
    (reg : Registry) : Registry :=
  patchSessionR reg sessionId (onErrorH message aid errId)

/-! ### Submission (submitContent, AgentChatPanel.tsx lines 269-310) -/

/-- Drop leading whitespace characters from a character list. -/
def dropLeadingWs : List Char → List Char
  | [] => []
  | c :: rest => if c.isWhitespace then dropLeadingWs rest else c :: rest

/-- The JS trim call on the submitted content: strip whitespace from both
ends. -/
def jsTrim (s : String) : String :=
  String.mk (dropLeadingWs ((dropLeadingWs s.data.reverse).reverse))

/-- The optimistic user message fabricated by submitContent: id is the
negated submit timestamp. -/
def optimisticUser (sessionId trimmed ts : String) (now : Int) : ChatMessage :=
  { id := -now
    session_id := sessionId
    created_at := ts
    role := "user"
    content := trimmed
    tool_calls := none }

/-- The optimistic assistant placeholder: id one below the user id, empty
content. -/
def optimisticAssistant (sessionId ts : String) (now : Int) : ChatMessage :=
  { id := -now - 1
    session_id := sessionId
    created_at := ts
    role := "assistant"
    content := ""
    tool_calls := none }

/-- The seed patch of submitContent (lines 302-310): set sending, seed the
trail and segments with the thinking placeholder, append both optimistic
messages. -/
def seedTurn (sessionId trimmed ts : String) (now : Int)
    (s : SessionState) : SessionState :=
  { s with
    sending := true
    streamStatus := some "Thinking..."
    hasStreamedText := false
    statusTrail := [{ id := "st-" ++ toString now, phase := "thinking",
                      message := "Thinking..." }]
    streamAssistantId := some (-now - 1)
    streamSegments := [{ id := "seg-" ++ toString now, kind := SegKind.thinking,
                         text := "Thinking...", toolInput := none }]
    messages := s.messages ++
      [optimisticUser sessionId trimmed ts now, optimisticAssistant sessionId ts now] }

/-- submitContent up to the point the transport is opened (lines 269-310).
The Bool records whether streamChatMessage was called: empty input, no
selected session, or an already-sending session all return early without
opening a transport. -/
def submitContent (reg : Registry) (sessionId content ts : String)
    (now : Int) : Registry × Bool :=
  let trimmed := jsTrim content
  if trimmed = "" then (reg, false)
  else if sessionId = "" then (reg, false)
  else
    let reg1 := ensureSessionR reg sessionId
    if (getSessionR reg1 sessionId).sending then (reg1, false)
    else (patchSessionR reg1 sessionId (seedTurn sessionId trimmed ts now), true)

/-! ### History load (the effect in AgentChatPanel.tsx lines 195-225) -/

/-- The patch applied when fetched history rows arrive (lines 208-214). -/
def loadRows (rows : List ChatMessage) (s : SessionState) : SessionState :=
  { s with
    messages := rows
    statusTrail := []
    streamStatus := none
    streamSegments := []
    streamAssistantId := none }

/-- The pre-await guard of the history-load effect (lines 196-201): the fetch
is started only when a session is selected and no entry for it is currently
sending. This check runs once, before the await of the fetched rows. -/
def historyLoadStarts (reg : Registry) (activeSessionId : String) : Bool :=
  if activeSessionId = "" then false
  else
    match lookupR reg activeSessionId with
    | some s => !s.sending
    | none => true

/-- The post-await patch of the history-load effect (lines 204-214): once the
fetched rows arrive they are applied to the then-current registry, guarded
only by the cancelled flag of the effect (set when the active session
changes), not by the sending flag. -/
def historyLoadApply (reg : Registry) (activeSessionId : String)
    (rows : List ChatMessage) (cancelled : Bool) : Registry :=
  if cancelled then reg
  else patchSessionR reg activeSessionId (loadRows rows)

/-- One full run of the history-load effect with a registry mutation (for
example a submitted turn) happening between the pre-await sending check and
the arrival of the fetched rows: when the load started, the rows patch is
applied to the mutated registry unless the effect was cancelled. -/
def historyLoadRun (reg : Registry) (activeSessionId : String)
    (rows : List ChatMessage) (midFetch : Registry → Registry)
    (cancelled : Bool) : Registry :=
  if historyLoadStarts reg activeSessionId then
    historyLoadApply (midFetch reg) activeSessionId rows cancelled
  else midFetch reg

/-! ### The websocket stream client (streamChatMessage, api/client.ts) -/

/-- A successfully parsed wire message, by its type tag; unknown type tags
fall through every branch of onmessage. -/
inductive WireMsg
  | ack (session : ChatSession) (userMessage : ChatMessage)
  | status (phase message : String) (toolInput : Option (List (String × String)))
  | delta (d : String)
  | done (session : ChatSession) (assistantMessage : ChatMessage)
      (stopReason : Option String)
  | error (e : String)
  | unknown
deriving DecidableEq, Repr

/-- The events a stream handle can observe: a delivered message (possibly
unparsable), the socket error and close events, and the caller invoking
abort. -/
inductive WsEvent
  | message (m : WireMsg)
  | malformed
  | socketError
  | socketClose
  | abortCall
deriving DecidableEq, Repr

/-- One handler callback invocation, as recorded in the trace. -/
inductive CbEvent
  | ackEv (session : ChatSession) (userMessage : ChatMessage)
  | statusEv (phase message : String) (toolInput : Option (List (String × String)))
  | deltaEv (d : String)
  | doneEv (session : ChatSession) (assistantMessage : ChatMessage)
  | errorEv (msg : String)
deriving DecidableEq, Repr

/-- The state of one stream handle: the settled guard, whether the transport
is open, how the done promise settled (if it did), and the trace of handler
callbacks invoked so far. -/
structure StreamState where
  settled : Bool
  wsOpen : Bool
  resolved : Bool
  rejected : Bool
  rejectMsg : Option String
  trace : List CbEvent
deriving DecidableEq, Repr

/-- A freshly opened handle. -/
def initStream : StreamState :=
  { settled := false
    wsOpen := true
    resolved := false
    rejected := false
    rejectMsg := none
    trace := [] }

/-- The fail closure (client.ts lines 247-257): guarded by settled; invokes
onError, closes the socket, rejects the done promise. -/
def failStep (msg : String) (st : StreamState) : StreamState :=
  if st.settled then st
  else
    { st with
      settled := true
      wsOpen := false
      rejected := true
      rejectMsg := some msg
      trace := st.trace ++ [CbEvent.errorEv msg] }

/-- The defaulting of an error envelope payload (falsy error string becomes
the generic failure text). -/
def errorText (e : String) : String :=
  if e = "" then "Chat stream failed" else e

/-- One step of the stream handle: the onmessage dispatch, the socket
error/close handlers, and abort (client.ts lines 247-331). -/
def stepWs (st : StreamState) (ev : WsEvent) : StreamState :=
  match ev with
  | WsEvent.message (WireMsg.ack sess um) =>
      { st with trace := st.trace ++ [CbEvent.ackEv sess um] }
  | WsEvent.message (WireMsg.status p m ti) =>
      { st with trace := st.trace ++ [CbEvent.statusEv p m ti] }
  | WsEvent.message (WireMsg.delta d) =>
      { st with trace := st.trace ++ [CbEvent.deltaEv d] }
  | WsEvent.message (WireMsg.done sess am _) =>
      { st with
        trace := st.trace ++ [CbEvent.doneEv sess am]
        settled := true
        wsOpen := false
        resolved := st.resolved || !st.rejected }
  | WsEvent.message (WireMsg.error e) => failStep (errorText e) st
  | WsEvent.message WireMsg.unknown => st
  | WsEvent.malformed => failStep "Invalid chat stream payload" st
  | WsEvent.socketError => failStep "Chat websocket connection failed" st
  | WsEvent.socketClose =>
      failStep "Chat websocket closed before completion" { st with wsOpen := false }
  | WsEvent.abortCall =>
      if st.settled then st else { st with settled := true, wsOpen := false }

/-- Run a handle over a sequence of observed events. -/
def runWs (evs : List WsEvent) : StreamState :=
  evs.foldl stepWs initStream

/-- Whether a callback event is an onError invocation. -/
def isErrorEv : CbEvent → Bool
  | CbEvent.errorEv _ => true
  | _ => false

/-- Number of onError invocations in a trace. -/
def errCount (l : List CbEvent) : Nat :=
  (l.filter isErrorEv).length

/-! ### Wiring the stream callbacks back into the registry -/

/-- Apply one recorded callback to the registry the way the handlers in
submitContent do: every handler patches only the captured session id. -/
def applyCb (sessionId : String) (uid aid : Int) (stId segId : String)
    (reg : Registry) (e : CbEvent) : Registry :=
  match e with
  | CbEvent.ackEv _ um => onAckR sessionId um uid reg
  | CbEvent.statusEv p m ti => onStatusR sessionId p m ti stId segId reg
  | CbEvent.deltaEv d => onDeltaR sessionId d segId reg
  | CbEvent.doneEv _ am => onDoneR sessionId am aid reg
  | CbEvent.errorEv m => onErrorR sessionId m aid stId reg

/-- The catch branch of the await on handle.done (lines 397-404): on a
rejected promise, restore a failure content into the assistant placeholder if
it is still empty. -/
def catchCleanup (sessionId : String) (aid : Int) (message : String)
    (reg : Registry) : Registry :=
  patchSessionR reg sessionId fun s =>
    { s with
      messages := s.messages.map fun row =>
        if row.id = aid then
          { row with content :=
              if row.content = "" then "Message failed: " ++ message
              else row.content }
        else row }

/-- The finally branch (lines 405-417): reset the sending flag only if a
terminal handler has not already done so. -/
def finallyCleanup (sessionId : String) (reg : Registry) : Registry :=
  if (getSessionR reg sessionId).sending then
    patchSessionR reg sessionId fun s =>
      { s with streamStatus := none, sending := false, hasStreamedText := false }
  else reg

/-- The registry after one turn whose stream observed the given events: the
callbacks run in trace order, and the catch and finally continuations of the
await run only when the done promise actually settled. An aborted handle
settles the promise in neither direction, so neither continuation runs. -/
def runTurn (sessionId : String) (uid aid : Int) (stId segId : String)
    (reg : Registry) (evs : List WsEvent) : Registry :=
  let m := runWs evs
  let reg1 := m.trace.foldl (applyCb sessionId uid aid stId segId) reg
  if m.rejected then
    finallyCleanup sessionId
      (catchCleanup sessionId aid (m.rejectMsg.getD "Failed to send chat message") reg1)
  else if m.resolved then finallyCleanup sessionId reg1
  else reg1

/-! ### Concrete fixtures -/

/-- The registry after submitting the text Hi on session s1 at time 5 into an
empty registry: one entry, sending, seeded with the thinking placeholder. -/
def seededReg : Registry := (submitContent [] "s1" "Hi" "t0" 5).1

/-- The seeded session entry itself. -/
def seededState : SessionState := getSessionR seededReg "s1"

/-- A server-confirmed message used as concrete input in witnesses. -/
def sampleMsg : ChatMessage :=
  { id := 42
    session_id := "s1"
    created_at := "t1"
    role := "user"
    content := "Hi"
    tool_calls := none }

/-- Whether the last live segment is a text segment (the adjacency condition
the delta handler tests). -/
def lastIsText (segs : List StreamSegment) : Bool :=
  match segs.getLast? with
  | some seg => seg.kind = SegKind.text
  | none => false

/-- The state after the delegation envelope sequence of property P4:
subagent_start, subagent_tool_start, subagent_tool_result, subagent_result,
all carrying correlation id Z, processed from the seeded state. -/
def p4Run : SessionState :=
  onStatusH "subagent_result" "researcher finished" (some [("subagent_id", "Z")]) "st5" "sg5"
    (onStatusH "subagent_tool_result" "done" (some [("subagent_id", "Z")]) "st4" "sg4"
      (onStatusH "subagent_tool_start" "searching" (some [("subagent_id", "Z")]) "st3" "sg3"
        (onStatusH "subagent_start" "Delegating to researcher"
          (some [("subagent_id", "Z"), ("subagent_type", "researcher")]) "st2" "sg2"
          seededState)))

/-! ### Helper lemmas -/

/-- Setting one key of the registry map leaves every other key's lookup
unchanged. -/
theorem lookupR_insertR_ne (reg : Registry) (a b : String) (v : SessionState)
    (h : ¬ b = a) : lookupR (insertR reg a v) b = lookupR reg b := by
  induction reg with
  | nil =>
      simp only [insertR, lookupR]
      exact if_neg fun hab => h hab.symm
  | cons kv rest ih =>
      obtain ⟨k, w⟩ := kv
      simp only [insertR]
      by_cases hk : k = a
      · have hkb : ¬ k = b := fun hkb => h (hkb.symm.trans hk)
        simp [if_pos hk, lookupR, hkb]
      · simp [if_neg hk, lookupR, ih]

/-! ### C3 -/

/-- C3: submitting while the session is already sending returns synchronously:
the transport is never opened (the Bool component records whether
streamChatMessage was called), no optimistic messages are appended, and the
registry, in particular the entry of that session, is left exactly as it
was. -/
theorem submit_while_sending_is_rejected (reg : Registry)
    (sid content ts : String) (now : Int) (s : SessionState)
    (hs : lookupR reg sid = some s) (hsend : s.sending = true) :
    submitContent reg sid content ts now = (reg, false) := by
  unfold submitContent
  by_cases h1 : jsTrim content = ""
  · simp [h1]
  · by_cases h2 : sid = ""
    · simp [h1, h2]
    · have he : ensureSessionR reg sid = reg := by
        unfold ensureSessionR
        rw [hs]
      have hg : getSessionR reg sid = s := by
        unfold getSessionR
        rw [hs]
        rfl
      simp [h1, h2, he, hg, hsend]

/-- C3 witness: a concrete sending session rejects a concrete submission and
the registry is untouched. -/
theorem submit_while_sending_is_rejected_witness :
    submitContent [("s1", { freshSession with sending := true })] "s1" "Hi" "t0" 5
      = ([("s1", { freshSession with sending := true })], false) :=
  submit_while_sending_is_rejected
    [("s1", { freshSession with sending := true })] "s1" "Hi" "t0" 5
    { freshSession with sending := true } (by decide) (by decide)

/-! ### C7 -/

/-- C7: the history-load effect checks the sending flag only before awaiting
the fetch, and the rows patch afterwards is guarded only by the cancelled
flag. So on the failing trace below the load starts while the session is
idle, a turn submitted during the fetch sets sending and appends the two
optimistic messages, and the arriving rows then overwrite the message list
and clear the live segments and streamed id of an entry whose sending flag
is still true: the live in-progress state is not left unchanged, contrary to
the claim and to the suppression rule of the spec. -/
theorem history_load_overwrites_midfetch_turn :
    historyLoadStarts [("s1", freshSession)] "s1" = true
    ∧ (getSessionR (submitContent [("s1", freshSession)] "s1" "Hi" "t0" 5).1 "s1").sending
        = true
    ∧ (getSessionR (submitContent [("s1", freshSession)] "s1" "Hi" "t0" 5).1 "s1").messages
        = [optimisticUser "s1" "Hi" "t0" 5, optimisticAssistant "s1" "t0" 5]
    ∧ (getSessionR (historyLoadRun [("s1", freshSession)] "s1" [sampleMsg]
          (fun reg => (submitContent reg "s1" "Hi" "t0" 5).1) false) "s1").sending
        = true
    ∧ (getSessionR (historyLoadRun [("s1", freshSession)] "s1" [sampleMsg]
          (fun reg => (submitContent reg "s1" "Hi" "t0" 5).1) false) "s1").messages
        = [sampleMsg]
    ∧ (getSessionR (historyLoadRun [("s1", freshSession)] "s1" [sampleMsg]
          (fun reg => (submitContent reg "s1" "Hi" "t0" 5).1) false) "s1").streamSegments
        = []
    ∧ (getSessionR (historyLoadRun [("s1", freshSession)] "s1" [sampleMsg]
          (fun reg => (submitContent reg "s1" "Hi" "t0" 5).1) false) "s1").streamAssistantId
        = none := by
  decide

/-! ### C9 -/

/-- C9: each of the five stream callbacks patches only the session id it
closed over: the registry entry of any other session id is left unchanged by
ack, status, delta, done and error handling alike, so segments can never leak
into another session's sequence. -/
theorem cross_session_independence (reg : Registry) (a b : String)
    (hab : ¬ b = a) (um am : ChatMessage) (uid aid : Int)
    (phase msg d m : String) (ti : Option (List (String × String)))
    (i1 i2 : String) :
    lookupR (onAckR a um uid reg) b = lookupR reg b
    ∧ lookupR (onStatusR a phase msg ti i1 i2 reg) b = lookupR reg b
    ∧ lookupR (onDeltaR a d i2 reg) b = lookupR reg b
    ∧ lookupR (onDoneR a am aid reg) b = lookupR reg b
    ∧ lookupR (onErrorR a m aid i1 reg) b = lookupR reg b := by
  refine ⟨?_, ?_, ?_, ?_, ?_⟩ <;> exact lookupR_insertR_ne _ _ _ _ hab

/-- C9 witness: with sessions a and b in the registry, every handler firing
on a leaves the entry of b as it was. -/
theorem cross_session_independence_witness :
    lookupR (onAckR "a" sampleMsg 1 [("b", freshSession)]) "b"
        = lookupR [("b", freshSession)] "b"
    ∧ lookupR (onStatusR "a" "thinking" "m" none "i1" "i2" [("b", freshSession)]) "b"
        = lookupR [("b", freshSession)] "b"
    ∧ lookupR (onDeltaR "a" "d" "i2" [("b", freshSession)]) "b"
        = lookupR [("b", freshSession)] "b"
    ∧ lookupR (onDoneR "a" sampleMsg 2 [("b", freshSession)]) "b"
        = lookupR [("b", freshSession)] "b"
    ∧ lookupR (onErrorR "a" "boom" 2 "i1" [("b", freshSession)]) "b"
        = lookupR [("b", freshSession)] "b" :=
  cross_session_independence [("b", freshSession)] "a" "b" (by decide)
    sampleMsg sampleMsg 1 2 "thinking" "m" "d" "boom" none "i1" "i2"

/-! ### C8 -/

/-- C8: the ack and done reconciliations preserve the length of the message
list and the entry at every position whose id is not the fabricated one; the
entry carrying the fabricated id is replaced in the same position by the
server-confirmed message. -/
theorem reconciliation_preserves_positions (s : SessionState)
    (um am : ChatMessage) (uid aid : Int) :
    (onAckH um uid s).messages.length = s.messages.length
    ∧ (onDoneH am aid s).messages.length = s.messages.length
    ∧ (∀ i : Nat, ∀ row, s.messages[i]? = some row →
        (¬ row.id = uid → (onAckH um uid s).messages[i]? = some row)
        ∧ (row.id = uid → (onAckH um uid s).messages[i]? = some um))
    ∧ (∀ i : Nat, ∀ row, s.messages[i]? = some row →
        (¬ row.id = aid → (onDoneH am aid s).messages[i]? = some row)
        ∧ (row.id = aid → (onDoneH am aid s).messages[i]? = some am)) := by
  refine ⟨by simp [onAckH], by simp [onDoneH], ?_, ?_⟩
  · intro i row hrow
    constructor
    · intro hne
      simp [onAckH, List.getElem?_map, hrow, hne]
    · intro heq
      simp [onAckH, List.getElem?_map, hrow, heq]
  · intro i row hrow
    constructor
    · intro hne
      simp [onDoneH, List.getElem?_map, hrow, hne]
    · intro heq
      simp [onDoneH, List.getElem?_map, hrow, heq]

/-- C8 witness: on the seeded two-message list, ack replaces the fabricated
user message in position 0 and leaves the fabricated assistant placeholder in
position 1 untouched. -/
theorem reconciliation_preserves_positions_witness :
    (onAckH sampleMsg (-5) seededState).messages.length
        = seededState.messages.length
    ∧ (onAckH sampleMsg (-5) seededState).messages[0]? = some sampleMsg
    ∧ (onAckH sampleMsg (-5) seededState).messages[1]?
        = some (optimisticAssistant "s1" "t0" 5) := by
  have h := reconciliation_preserves_positions seededState sampleMsg sampleMsg (-5) (-6)
  refine ⟨h.1, ?_, ?_⟩
  · exact (h.2.2.1 0 (optimisticUser "s1" "Hi" "t0" 5) (by decide)).2 (by decide)
  · exact (h.2.2.1 1 (optimisticAssistant "s1" "t0" 5) (by decide)).1 (by decide)

/-! ### Stream-handle lemmas -/

/-- Appending one callback to a trace adds one onError count exactly when it
is an error callback. -/
theorem errCount_append_one (l : List CbEvent) (e : CbEvent) :
    errCount (l ++ [e]) = errCount l + (if isErrorEv e then 1 else 0) := by
  by_cases he : isErrorEv e <;>
    simp [errCount, List.filter_append, List.filter_cons, he]

/-- Once the handle is settled it stays settled. -/
theorem stepWs_settled_of_settled (st : StreamState) (ev : WsEvent)
    (h : st.settled = true) : (stepWs st ev).settled = true := by
  cases ev with
  | message m => cases m <;> simp [stepWs, failStep, h]
  | malformed => simp [stepWs, failStep, h]
  | socketError => simp [stepWs, failStep, h]
  | socketClose => simp [stepWs, failStep, h]
  | abortCall => simp [stepWs, h]

/-- Once the handle is settled, no step invokes onError again. -/
theorem stepWs_errCount_of_settled (st : StreamState) (ev : WsEvent)
    (h : st.settled = true) :
    errCount (stepWs st ev).trace = errCount st.trace := by
  cases ev with
  | message m =>
      cases m <;> simp [stepWs, failStep, h, errCount_append_one, isErrorEv]
  | malformed => simp [stepWs, failStep, h]
  | socketError => simp [stepWs, failStep, h]
  | socketClose => simp [stepWs, failStep, h]
  | abortCall => simp [stepWs, h]

/-- No sequence of further events adds an onError invocation to a settled
handle. -/
theorem foldl_errCount_of_settled (post : List WsEvent) (st : StreamState)
    (h : st.settled = true) :
    errCount (post.foldl stepWs st).trace = errCount st.trace := by
  induction post generalizing st with
  | nil => rfl
  | cons e rest ih =>
      rw [List.foldl_cons, ih (stepWs st e) (stepWs_settled_of_settled st e h),
        stepWs_errCount_of_settled st e h]

/-- One step preserves the error invariant: an unsettled handle has reported
no error, and no handle ever reports more than one. -/
theorem stepWs_err_invariant (st : StreamState) (ev : WsEvent)
    (h0 : st.settled = false → errCount st.trace = 0)
    (h1 : errCount st.trace ≤ 1) :
    ((stepWs st ev).settled = false → errCount (stepWs st ev).trace = 0)
    ∧ errCount (stepWs st ev).trace ≤ 1 := by
  by_cases hs : st.settled = true
  · rw [stepWs_errCount_of_settled st ev hs]
    refine ⟨fun hcontra => ?_, h1⟩
    rw [stepWs_settled_of_settled st ev hs] at hcontra
    cases hcontra
  · have hs' : st.settled = false := by
      cases hset : st.settled
      · rfl
      · exact absurd hset hs
    have h00 : errCount st.trace = 0 := h0 hs'
    cases ev with
    | message m =>
        cases m <;>
          simp [stepWs, failStep, hs', errCount_append_one, isErrorEv, h00]
    | malformed => simp [stepWs, failStep, hs', errCount_append_one, isErrorEv, h00]
    | socketError => simp [stepWs, failStep, hs', errCount_append_one, isErrorEv, h00]
    | socketClose => simp [stepWs, failStep, hs', errCount_append_one, isErrorEv, h00]
    | abortCall => simp [stepWs, hs', h00]

/-- The error invariant holds of every run of the handle. -/
theorem runWs_err_invariant (evs : List WsEvent) :
    ((runWs evs).settled = false → errCount (runWs evs).trace = 0)
    ∧ errCount (runWs evs).trace ≤ 1 := by
  suffices h : ∀ st : StreamState, (st.settled = false → errCount st.trace = 0) →
      errCount st.trace ≤ 1 →
      (((evs.foldl stepWs st).settled = false →
          errCount (evs.foldl stepWs st).trace = 0)
        ∧ errCount (evs.foldl stepWs st).trace ≤ 1) by
    exact h initStream (fun _ => rfl) (by decide)
  induction evs with
  | nil => exact fun st h0 h1 => ⟨h0, h1⟩
  | cons e rest ih =>
      intro st h0 h1
      have h2 := stepWs_err_invariant st e h0 h1
      exact ih (stepWs st e) h2.1 h2.2

/-- Abort settles the handle without invoking any callback. -/
theorem stepWs_abort_facts (st : StreamState) :
    (stepWs st WsEvent.abortCall).settled = true
    ∧ (stepWs st WsEvent.abortCall).trace = st.trace := by
  by_cases hs : st.settled = true
  · simp [stepWs, hs]
  · simp [stepWs, hs]

/-- A done envelope settles the handle and adds no onError invocation. -/
theorem stepWs_done_facts (st : StreamState) (sess : ChatSession)
    (am : ChatMessage) (sr : Option String) :
    (stepWs st (WsEvent.message (WireMsg.done sess am sr))).settled = true
    ∧ errCount (stepWs st (WsEvent.message (WireMsg.done sess am sr))).trace
        = errCount st.trace := by
  simp [stepWs, errCount_append_one, isErrorEv]

/-- A settled handle has a closed transport. -/
theorem stepWs_closed_invariant (st : StreamState) (ev : WsEvent)
    (h : st.settled = true → st.wsOpen = false) :
    (stepWs st ev).settled = true → (stepWs st ev).wsOpen = false := by
  by_cases hs : st.settled = true
  · cases ev with
    | message m => cases m <;> simp [stepWs, failStep, hs, h hs]
    | malformed => simp [stepWs, failStep, hs, h hs]
    | socketError => simp [stepWs, failStep, hs, h hs]
    | socketClose => simp [stepWs, failStep, hs, h hs]
    | abortCall => simp [stepWs, hs, h hs]
  · cases ev with
    | message m => cases m <;> simp [stepWs, failStep, hs]
    | malformed => simp [stepWs, failStep, hs]
    | socketError => simp [stepWs, failStep, hs]
    | socketClose => simp [stepWs, failStep, hs]
    | abortCall => simp [stepWs, hs]

/-- Every run of the handle keeps the transport closed once settled. -/
theorem runWs_closed_invariant (evs : List WsEvent) :
    (runWs evs).settled = true → (runWs evs).wsOpen = false := by
  suffices h : ∀ st : StreamState, (st.settled = true → st.wsOpen = false) →
      ((evs.foldl stepWs st).settled = true → (evs.foldl stepWs st).wsOpen = false) by
    exact h initStream (by decide)
  induction evs with
  | nil => exact fun st h => h
  | cons e rest ih =>
      exact fun st h => ih (stepWs st e) (stepWs_closed_invariant st e h)

/-- A closed transport never reopens. -/
theorem stepWs_wsOpen_false (st : StreamState) (ev : WsEvent)
    (h : st.wsOpen = false) : (stepWs st ev).wsOpen = false := by
  cases ev with
  | message m =>
      cases m <;> by_cases hs : st.settled = true <;>
        simp [stepWs, failStep, hs, h]
  | malformed => by_cases hs : st.settled = true <;> simp [stepWs, failStep, hs, h]
  | socketError => by_cases hs : st.settled = true <;> simp [stepWs, failStep, hs, h]
  | socketClose => by_cases hs : st.settled = true <;> simp [stepWs, failStep, hs, h]
  | abortCall => by_cases hs : st.settled = true <;> simp [stepWs, hs, h]

/-- A closed transport stays closed under any further events. -/
theorem foldl_wsOpen_false (post : List WsEvent) (st : StreamState)
    (h : st.wsOpen = false) : (post.foldl stepWs st).wsOpen = false := by
  induction post generalizing st with
  | nil => exact h
  | cons e rest ih => exact ih (stepWs st e) (stepWs_wsOpen_false st e h)

/-- Abort leaves the transport closed. -/
theorem stepWs_abort_wsOpen (st : StreamState)
    (h : st.settled = true → st.wsOpen = false) :
    (stepWs st WsEvent.abortCall).wsOpen = false := by
  by_cases hs : st.settled = true
  · simp [stepWs, hs, h hs]
  · simp [stepWs, hs]

/-- Splitting a run of the handle at one event. -/
theorem runWs_split (pre post : List WsEvent) (ev : WsEvent) :
    runWs (pre ++ ev :: post) = post.foldl stepWs (stepWs (runWs pre) ev) := by
  simp [runWs, List.foldl_append]

/-! ### C10 -/

/-- C10: over any sequence of websocket events the onError callback fires at
most once, and never after abort was called or after a done envelope was
handled: the onError count of the whole run equals the count accumulated
before the abort call, and likewise before the done envelope. -/
theorem on_error_fires_at_most_once (evs pre post : List WsEvent)
    (sess : ChatSession) (am : ChatMessage) (sr : Option String) :
    errCount (runWs evs).trace ≤ 1
    ∧ errCount (runWs (pre ++ WsEvent.abortCall :: post)).trace
        = errCount (runWs pre).trace
    ∧ errCount (runWs (pre ++ WsEvent.message (WireMsg.done sess am sr) :: post)).trace
        = errCount (runWs pre).trace := by
  refine ⟨(runWs_err_invariant evs).2, ?_, ?_⟩
  · rw [runWs_split,
      foldl_errCount_of_settled post _ (stepWs_abort_facts (runWs pre)).1,
      (stepWs_abort_facts (runWs pre)).2]
  · rw [runWs_split,
      foldl_errCount_of_settled post _ (stepWs_done_facts (runWs pre) sess am sr).1,
      (stepWs_done_facts (runWs pre) sess am sr).2]

/-! ### C2 -/

/-- C2 counterexample: submit a turn, then call abort on the handle. Abort
invokes no callback (in particular not onError) and closes the transport, but
it settles the done promise in neither direction, so neither the catch nor
the finally continuation of submitContent ever runs: the registry keeps the
session's sending flag true, and a new submission right after the abort is
still rejected. This refutes the claim that abort frees the per-session
sending slot immediately so a new turn can be submitted right after. -/
theorem abort_does_not_free_slot :
    (submitContent [] "s1" "Hi" "t0" 5).2 = true
    ∧ (runWs [WsEvent.abortCall]).trace = []
    ∧ (runWs [WsEvent.abortCall]).settled = true
    ∧ (runWs [WsEvent.abortCall]).wsOpen = false
    ∧ (runWs [WsEvent.abortCall]).resolved = false
    ∧ (runWs [WsEvent.abortCall]).rejected = false
    ∧ runTurn "s1" (-5) (-6) "st" "sg" seededReg [WsEvent.abortCall] = seededReg
    ∧ (getSessionR (runTurn "s1" (-5) (-6) "st" "sg" seededReg [WsEvent.abortCall]) "s1").sending = true
    ∧ (submitContent (runTurn "s1" (-5) (-6) "st" "sg" seededReg [WsEvent.abortCall]) "s1" "Again" "t1" 7).2 = false := by
  decide

/-- C2 amended: calling abort on an in-flight handle never invokes the
onError path (no callback at all fires from the abort on), and the transport
is and stays closed; but abort does not free the per-session sending slot:
the seeded session entry keeps sending true after the aborted turn, so a new
submission for that session is still rejected until some terminal envelope
path resets the flag. -/
theorem abort_silent_but_slot_not_freed (pre post : List WsEvent) :
    errCount (runWs (pre ++ WsEvent.abortCall :: post)).trace
      = errCount (runWs pre).trace
    ∧ (runWs (pre ++ WsEvent.abortCall :: post)).wsOpen = false
    ∧ (getSessionR (runTurn "s1" (-5) (-6) "st" "sg" seededReg [WsEvent.abortCall]) "s1").sending = true
    ∧ (submitContent (runTurn "s1" (-5) (-6) "st" "sg" seededReg [WsEvent.abortCall]) "s1" "Again" "t1" 7).2 = false := by
  refine ⟨?_, ?_, by decide, by decide⟩
  · rw [runWs_split,
      foldl_errCount_of_settled post _ (stepWs_abort_facts (runWs pre)).1,
      (stepWs_abort_facts (runWs pre)).2]
  · rw [runWs_split]
    exact foldl_wsOpen_false post _
      (stepWs_abort_wsOpen (runWs pre) (runWs_closed_invariant pre))

/-! ### Status-aggregation lemmas -/

/-- A status whose derived kind and text match the last live segment is
suppressed. -/
theorem statusSegs_last_matches (phase next b : String)
    (ti : Option (List (String × String))) (segs : List StreamSegment)
    (prev : StreamSegment) (hl : segs.getLast? = some prev)
    (hk : prev.kind = phaseKind phase) (ht : prev.text = next) :
    statusSegs phase next b ti segs = segs := by
  simp [statusSegs, hl, hk, ht]

/-- A status that does not match the last live segment appends exactly one
segment at the end. -/
theorem statusSegs_appends (phase next b : String)
    (ti : Option (List (String × String))) (segs : List StreamSegment)
    (h : ∀ prev, segs.getLast? = some prev →
        (¬ prev.kind = phaseKind phase ∨ ¬ prev.text = next)) :
    statusSegs phase next b ti segs
      = segs ++ [newStatusSegment phase next b ti] := by
  cases hl : segs.getLast? with
  | none => simp [statusSegs, hl]
  | some prev =>
      have hc := h prev hl
      simp only [statusSegs, hl]
      rw [if_pos hc]

/-- A status either leaves the live sequence unchanged or appends exactly
one segment of its derived kind at the end. -/
theorem statusSegs_noop_or_appends (phase next b : String)
    (ti : Option (List (String × String))) (segs : List StreamSegment) :
    statusSegs phase next b ti segs = segs
    ∨ statusSegs phase next b ti segs
        = segs ++ [newStatusSegment phase next b ti] := by
  cases hl : segs.getLast? with
  | none =>
      right
      exact statusSegs_appends phase next b ti segs
        (fun prev hprev => by rw [hl] at hprev; cases hprev)
  | some prev =>
      by_cases hk : prev.kind = phaseKind phase ∧ prev.text = next
      · left
        exact statusSegs_last_matches phase next b ti segs prev hl hk.1 hk.2
      · right
        exact statusSegs_appends phase next b ti segs
          (fun q hq => by
            rw [hl] at hq
            injection hq with hq
            exact hq ▸ (not_and_or.mp hk))

/-- Repeating the same status is a no-op on the live sequence. -/
theorem statusSegs_idem (phase next b1 b2 : String)
    (ti1 ti2 : Option (List (String × String))) (segs : List StreamSegment) :
    statusSegs phase next b2 ti2 (statusSegs phase next b1 ti1 segs)
      = statusSegs phase next b1 ti1 segs := by
  cases hl : segs.getLast? with
  | none =>
      have h1 : statusSegs phase next b1 ti1 segs
          = segs ++ [newStatusSegment phase next b1 ti1] :=
        statusSegs_appends phase next b1 ti1 segs
          (fun prev hprev => by rw [hl] at hprev; cases hprev)
      rw [h1]
      exact statusSegs_last_matches phase next b2 ti2 _ _
        (List.getLast?_concat _) rfl rfl
  | some prev =>
      by_cases hk : prev.kind = phaseKind phase ∧ prev.text = next
      · have h1 : statusSegs phase next b1 ti1 segs = segs :=
          statusSegs_last_matches phase next b1 ti1 segs prev hl hk.1 hk.2
        rw [h1]
        exact statusSegs_last_matches phase next b2 ti2 segs prev hl hk.1 hk.2
      · have h1 : statusSegs phase next b1 ti1 segs
            = segs ++ [newStatusSegment phase next b1 ti1] :=
          statusSegs_appends phase next b1 ti1 segs
            (fun q hq => by
              rw [hl] at hq
              injection hq with hq
              exact hq ▸ (not_and_or.mp hk))
        rw [h1]
        exact statusSegs_last_matches phase next b2 ti2 _ _
          (List.getLast?_concat _) rfl rfl

/-- The live-segment component of onStatus is the statusSegs update. -/
theorem onStatusH_segments (phase message : String)
    (ti : Option (List (String × String))) (a b : String) (s : SessionState) :
    (onStatusH phase message ti a b s).streamSegments
      = statusSegs phase (statusText message) b ti s.streamSegments := rfl

/-! ### C5 -/

/-- C5 counterexample: from the seeded state, whose live sequence already
ends in the thinking placeholder, two consecutive status envelopes with
identical phase thinking and identical message Thinking... append zero
segments rather than exactly one: both are suppressed against the existing
last segment, so the sequence still has its single seeded segment. -/
theorem duplicate_status_appends_zero :
    (onStatusH "thinking" "Thinking..." none "a2" "b2"
        (onStatusH "thinking" "Thinking..." none "a1" "b1" seededState)).streamSegments
      = seededState.streamSegments
    ∧ seededState.streamSegments.length = 1 := by decide

/-- C5 amended: two consecutive status envelopes with identical phase and
message append at most one segment: the second is always a no-op on the live
sequence, the first appends one segment exactly when its derived kind or
text differs from the current last segment, and any status differing from
the last segment in derived kind or text does append a new segment. -/
theorem duplicate_status_idempotent (s : SessionState) (phase message : String)
    (ti1 ti2 : Option (List (String × String))) (a1 b1 a2 b2 : String) :
    (onStatusH phase message ti2 a2 b2
        (onStatusH phase message ti1 a1 b1 s)).streamSegments
      = (onStatusH phase message ti1 a1 b1 s).streamSegments
    ∧ ((onStatusH phase message ti1 a1 b1 s).streamSegments = s.streamSegments
        ∨ (onStatusH phase message ti1 a1 b1 s).streamSegments
            = s.streamSegments
              ++ [newStatusSegment phase (statusText message) b1 ti1])
    ∧ (∀ prev, s.streamSegments.getLast? = some prev →
        (¬ prev.kind = phaseKind phase ∨ ¬ prev.text = statusText message) →
        (onStatusH phase message ti1 a1 b1 s).streamSegments
          = s.streamSegments
            ++ [newStatusSegment phase (statusText message) b1 ti1]) := by
  refine ⟨?_, ?_, ?_⟩
  · simp only [onStatusH_segments]
    exact statusSegs_idem phase (statusText message) b1 b2 ti1 ti2 s.streamSegments
  · simp only [onStatusH_segments]
    exact statusSegs_noop_or_appends phase (statusText message) b1 ti1 s.streamSegments
  · intro prev hl hc
    simp only [onStatusH_segments]
    exact statusSegs_appends phase (statusText message) b1 ti1 s.streamSegments
      (fun q hq => by
        rw [hl] at hq
        injection hq with hq
        exact hq ▸ hc)

/-- C5 witness: a tool_start status differing from the seeded thinking
segment appends one segment, and its duplicate is a no-op. -/
theorem duplicate_status_idempotent_witness :
    (onStatusH "tool_start" "Running" none "a2" "b2"
        (onStatusH "tool_start" "Running" none "a1" "b1" seededState)).streamSegments
      = (onStatusH "tool_start" "Running" none "a1" "b1" seededState).streamSegments
    ∧ (onStatusH "tool_start" "Running" none "a1" "b1" seededState).streamSegments
        = seededState.streamSegments
          ++ [newStatusSegment "tool_start" (statusText "Running") "b1" none] := by
  have h := duplicate_status_idempotent seededState "tool_start" "Running"
    none none "a1" "b1" "a2" "b2"
  refine ⟨h.1, ?_⟩
  refine h.2.2
    { id := "seg-5", kind := SegKind.thinking, text := "Thinking...", toolInput := none }
    (by decide) ?_
  left
  decide

/-! ### C1 -/

/-- C1 counterexample: the implemented onStatus has no delegation handling at
all: a status envelope whose phase is subagent_start, carrying a correlation
id and sub-agent type in its tool input, IS appended to the live sequence as
a plain segment of kind thinking (the segment type has no subagent kind, no
status, and no nested list), contradicting the claim that it is not appended
as a plain segment but produces a dedicated subagent segment. -/
theorem subagent_start_appended_as_plain_segment :
    (onStatusH "subagent_start" "Delegating to researcher"
        (some [("subagent_id", "Z"), ("subagent_type", "researcher")]) "st2" "sg2"
        seededState).streamSegments
      = seededState.streamSegments
        ++ [{ id := "sg2", kind := SegKind.thinking,
              text := "Delegating to researcher", toolInput := none }] := by decide

/-- C1 amended: every status envelope, delegation phases included, either is
suppressed as a duplicate or appends one plain top-level segment of its
derived kind; the subagent_start phase derives the thinking kind and its
correlation tool input is dropped; hence the P4 delegation sequence yields
four flat thinking segments after the seeded placeholder, with no subagent
segment and no nesting. -/
theorem delegation_phases_are_plain_segments (s : SessionState)
    (phase message : String) (ti : Option (List (String × String)))
    (a b : String) :
    ((onStatusH phase message ti a b s).streamSegments = s.streamSegments
      ∨ (onStatusH phase message ti a b s).streamSegments
          = s.streamSegments
            ++ [newStatusSegment phase (statusText message) b ti])
    ∧ phaseKind "subagent_start" = SegKind.thinking
    ∧ (newStatusSegment "subagent_start" "Delegating to researcher" "sg2"
        (some [("subagent_id", "Z"), ("subagent_type", "researcher")])).toolInput
        = none
    ∧ p4Run.streamSegments
        = seededState.streamSegments
          ++ [{ id := "sg2", kind := SegKind.thinking,
                text := "Delegating to researcher", toolInput := none },
              { id := "sg3", kind := SegKind.thinking,
                text := "searching", toolInput := none },
              { id := "sg4", kind := SegKind.thinking,
                text := "done", toolInput := none },
              { id := "sg5", kind := SegKind.thinking,
                text := "researcher finished", toolInput := none }] := by
  refine ⟨?_, by decide, by decide, by decide⟩
  simp only [onStatusH_segments]
  exact statusSegs_noop_or_appends phase (statusText message) b ti s.streamSegments

/-! ### Delta lemmas and C4 -/

/-- A delta arriving when the last live segment is text grows that segment in
place: earlier segments and the length are untouched. -/
theorem deltaSegs_extends (delta segId : String) (rest : List StreamSegment)
    (lastSeg : StreamSegment) (ht : lastSeg.kind = SegKind.text) :
    deltaSegs delta segId (rest ++ [lastSeg])
      = rest ++ [{ lastSeg with text := lastSeg.text ++ delta }] := by
  simp [deltaSegs, List.getLast?_concat, ht, List.dropLast_concat]

/-- A delta arriving when the last live segment is not text appends a fresh
text segment seeded with the fragment. -/
theorem deltaSegs_appends (delta segId : String) (segs : List StreamSegment)
    (h : lastIsText segs = false) :
    deltaSegs delta segId segs
      = segs ++ [{ id := segId, kind := SegKind.text, text := delta,
                   toolInput := none }] := by
  unfold lastIsText at h
  cases hl : segs.getLast? with
  | none => simp [deltaSegs, hl]
  | some prev =>
      rw [hl] at h
      have h' : ¬ prev.kind = SegKind.text := by simpa using h
      simp [deltaSegs, hl, h']

/-- The live-segment component of onDelta is the deltaSegs update. -/
theorem onDeltaH_segments (delta segId : String) (s : SessionState) :
    (onDeltaH delta segId s).streamSegments
      = deltaSegs delta segId s.streamSegments := rfl

/-- C4: a delta extends a trailing text segment in place, preserving the
sequence length and every earlier segment; otherwise it appends a new text
segment equal to the fragment at the end; consequently two consecutive
deltas x then y from a non-text tail produce a single text segment xy, in
arrival position. -/
theorem delta_order_and_coalescing (s : SessionState) (d1 d2 i1 i2 : String) :
    (∀ rest lastSeg, s.streamSegments = rest ++ [lastSeg] →
        lastSeg.kind = SegKind.text →
        (onDeltaH d1 i1 s).streamSegments
          = rest ++ [{ lastSeg with text := lastSeg.text ++ d1 }])
    ∧ (lastIsText s.streamSegments = false →
        (onDeltaH d1 i1 s).streamSegments
          = s.streamSegments
            ++ [{ id := i1, kind := SegKind.text, text := d1, toolInput := none }])
    ∧ (lastIsText s.streamSegments = false →
        (onDeltaH d2 i2 (onDeltaH d1 i1 s)).streamSegments
          = s.streamSegments
            ++ [{ id := i1, kind := SegKind.text, text := d1 ++ d2,
                  toolInput := none }]) := by
  refine ⟨?_, ?_, ?_⟩
  · intro rest lastSeg h ht
    rw [onDeltaH_segments, h]
    exact deltaSegs_extends d1 i1 rest lastSeg ht
  · intro h
    rw [onDeltaH_segments]
    exact deltaSegs_appends d1 i1 s.streamSegments h
  · intro h
    have e1 : (onDeltaH d1 i1 s).streamSegments
        = s.streamSegments
          ++ [{ id := i1, kind := SegKind.text, text := d1, toolInput := none }] := by
      rw [onDeltaH_segments]
      exact deltaSegs_appends d1 i1 s.streamSegments h
    rw [onDeltaH_segments, e1]
    rw [deltaSegs_extends d2 i2 s.streamSegments _ rfl]

/-- C4 witness: from the seeded state (thinking tail), delta x appends a text
segment and delta y coalesces into it; and from a state with a text tail, a
delta extends that segment in place. -/
theorem delta_order_and_coalescing_witness :
    (onDeltaH "y" "i2" (onDeltaH "x" "i1" seededState)).streamSegments
      = seededState.streamSegments
        ++ [{ id := "i1", kind := SegKind.text, text := "xy", toolInput := none }]
    ∧ (onDeltaH "z" "i3" (onDeltaH "x" "i1" seededState)).streamSegments
      = [{ id := "seg-5", kind := SegKind.thinking, text := "Thinking...",
           toolInput := none }]
        ++ [{ id := "i1", kind := SegKind.text, text := "xz", toolInput := none }] := by
  have h1 := delta_order_and_coalescing seededState "x" "y" "i1" "i2"
  have h2 := delta_order_and_coalescing (onDeltaH "x" "i1" seededState) "z" "w" "i3" "i4"
  refine ⟨h1.2.2 (by decide), ?_⟩
  exact h2.1
    [{ id := "seg-5", kind := SegKind.thinking, text := "Thinking...", toolInput := none }]
    { id := "i1", kind := SegKind.text, text := "x", toolInput := none }
    (by decide) (by decide)

/-! ### C6 -/

/-- C6: a turn-scoped error keeps the message list length and every other
entry in its position, overwrites only the fabricated assistant entry's
content with the failure-prefixed string, clears the live segments, resets
the sending flag and the streamed id; a transport close before any terminal
envelope reports exactly the synthetic closed-before-completion message; and
the session accepts a new submission immediately after the error handler
ran. -/
theorem error_path_is_recoverable (s : SessionState) (m : String) (aid : Int)
    (eid : String) :
    (onErrorH m aid eid s).messages.length = s.messages.length
    ∧ (onErrorH m aid eid s).streamSegments = []
    ∧ (onErrorH m aid eid s).sending = false
    ∧ (onErrorH m aid eid s).streamAssistantId = none
    ∧ (∀ i : Nat, ∀ row, s.messages[i]? = some row →
        (¬ row.id = aid → (onErrorH m aid eid s).messages[i]? = some row)
        ∧ (row.id = aid → (onErrorH m aid eid s).messages[i]?
            = some { row with content := "Message failed: " ++ m }))
    ∧ (∀ st : StreamState, st.settled = false →
        (stepWs st WsEvent.socketClose).trace
          = st.trace ++ [CbEvent.errorEv "Chat websocket closed before completion"])
    ∧ (submitContent (onErrorR "s1" "boom" (-6) "e1" seededReg) "s1" "Hi" "t1" 7).2
        = true := by
  refine ⟨by simp [onErrorH], rfl, rfl, rfl, ?_, ?_, by decide⟩
  · intro i row hrow
    constructor
    · intro hne
      simp [onErrorH, List.getElem?_map, hrow, hne]
    · intro heq
      simp [onErrorH, List.getElem?_map, hrow, heq]
  · intro st h
    simp [stepWs, failStep, h]

/-- C6 witness: on the seeded session, a concrete error marks only the
fabricated assistant entry, keeps the user entry, and the socket-close path
from a fresh unsettled handle reports the synthetic message. -/
theorem error_path_is_recoverable_witness :
    (onErrorH "boom" (-6) "e1" seededState).messages.length
        = seededState.messages.length
    ∧ (onErrorH "boom" (-6) "e1" seededState).messages[1]?
        = some { optimisticAssistant "s1" "t0" 5 with
                 content := "Message failed: boom" }
    ∧ (onErrorH "boom" (-6) "e1" seededState).messages[0]?
        = some (optimisticUser "s1" "Hi" "t0" 5)
    ∧ (stepWs initStream WsEvent.socketClose).trace
        = [CbEvent.errorEv "Chat websocket closed before completion"] := by
  have h := error_path_is_recoverable seededState "boom" (-6) "e1"
  refine ⟨h.1, ?_, ?_, ?_⟩
  · exact (h.2.2.2.2.1 1 (optimisticAssistant "s1" "t0" 5) (by decide)).2 (by decide)
  · exact (h.2.2.2.2.1 0 (optimisticUser "s1" "Hi" "t0" 5) (by decide)).1 (by decide)
  · have h6 := h.2.2.2.2.2.1 initStream rfl
    simpa using h6

end OpenPF
